import Mathlib

/-!
Shallow embedding of the KosmOSS spacecraft propagation core, with theorems
checking the natural-language specification against the source.

Floating-point numbers (f64) are modelled as real numbers; fallible code
(a Rust unwrap that can panic) is modelled with Option, where `none` stands
for the panic/abort path.
-/

open scoped Classical

namespace KosmOSS

noncomputable section

/-! ## src/constants.rs -/

def G : ℝ := 6.67430e-11

def M_EARTH : ℝ := 5.972e24

/-! ## 3-vectors (nalgebra::Vector3<f64>) -/

structure Vec3 where
  x : ℝ
  y : ℝ
  z : ℝ

namespace Vec3

def zeros : Vec3 := ⟨0, 0, 0⟩

def add (a b : Vec3) : Vec3 := ⟨a.x + b.x, a.y + b.y, a.z + b.z⟩

def sub (a b : Vec3) : Vec3 := ⟨a.x - b.x, a.y - b.y, a.z - b.z⟩

def smul (v : Vec3) (c : ℝ) : Vec3 := ⟨v.x * c, v.y * c, v.z * c⟩

def dot (a b : Vec3) : ℝ := a.x * b.x + a.y * b.y + a.z * b.z

def cross (a b : Vec3) : Vec3 :=
  ⟨a.y * b.z - a.z * b.y, a.z * b.x - a.x * b.z, a.x * b.y - a.y * b.x⟩

def magnitude (v : Vec3) : ℝ := Real.sqrt (v.x ^ 2 + v.y ^ 2 + v.z ^ 2)

def normalize (v : Vec3) : Vec3 :=
  ⟨v.x / v.magnitude, v.y / v.magnitude, v.z / v.magnitude⟩

end Vec3

/-! ## 3x3 matrices (nalgebra::Matrix3<f64>), row-major constructor order -/

structure Matrix3 where
  m11 : ℝ
  m12 : ℝ
  m13 : ℝ
  m21 : ℝ
  m22 : ℝ
  m23 : ℝ
  m31 : ℝ
  m32 : ℝ
  m33 : ℝ

namespace Matrix3

def zeros : Matrix3 := ⟨0, 0, 0, 0, 0, 0, 0, 0, 0⟩

def identity : Matrix3 := ⟨1, 0, 0, 0, 1, 0, 0, 0, 1⟩

def transpose (m : Matrix3) : Matrix3 :=
  ⟨m.m11, m.m21, m.m31, m.m12, m.m22, m.m32, m.m13, m.m23, m.m33⟩

def sub (a b : Matrix3) : Matrix3 :=
  ⟨a.m11 - b.m11, a.m12 - b.m12, a.m13 - b.m13,
   a.m21 - b.m21, a.m22 - b.m22, a.m23 - b.m23,
   a.m31 - b.m31, a.m32 - b.m32, a.m33 - b.m33⟩

def smul (m : Matrix3) (c : ℝ) : Matrix3 :=
  ⟨m.m11 * c, m.m12 * c, m.m13 * c,
   m.m21 * c, m.m22 * c, m.m23 * c,
   m.m31 * c, m.m32 * c, m.m33 * c⟩

def mulVec (m : Matrix3) (v : Vec3) : Vec3 :=
  ⟨m.m11 * v.x + m.m12 * v.y + m.m13 * v.z,
   m.m21 * v.x + m.m22 * v.y + m.m23 * v.z,
   m.m31 * v.x + m.m32 * v.y + m.m33 * v.z⟩

def mul (a b : Matrix3) : Matrix3 :=
  ⟨a.m11 * b.m11 + a.m12 * b.m21 + a.m13 * b.m31,
   a.m11 * b.m12 + a.m12 * b.m22 + a.m13 * b.m32,
   a.m11 * b.m13 + a.m12 * b.m23 + a.m13 * b.m33,
   a.m21 * b.m11 + a.m22 * b.m21 + a.m23 * b.m31,
   a.m21 * b.m12 + a.m22 * b.m22 + a.m23 * b.m32,
   a.m21 * b.m13 + a.m22 * b.m23 + a.m23 * b.m33,
   a.m31 * b.m11 + a.m32 * b.m21 + a.m33 * b.m31,
   a.m31 * b.m12 + a.m32 * b.m22 + a.m33 * b.m32,
   a.m31 * b.m13 + a.m32 * b.m23 + a.m33 * b.m33⟩

def from_columns (c1 c2 c3 : Vec3) : Matrix3 :=
  ⟨c1.x, c2.x, c3.x, c1.y, c2.y, c3.y, c1.z, c2.z, c3.z⟩

/-- Cofactor-expansion determinant, as computed by nalgebra for 3x3 inversion. -/
def det (m : Matrix3) : ℝ :=
  m.m11 * (m.m22 * m.m33 - m.m23 * m.m32)
  - m.m12 * (m.m21 * m.m33 - m.m23 * m.m31)
  + m.m13 * (m.m21 * m.m32 - m.m22 * m.m31)

/-- nalgebra Matrix3::try_inverse: succeeds exactly when the determinant is
nonzero, returning the adjugate divided by the determinant. -/
def try_inverse (m : Matrix3) : Option Matrix3 :=
  if m.det = 0 then none
  else some (Matrix3.smul
    ⟨m.m22 * m.m33 - m.m23 * m.m32, m.m13 * m.m32 - m.m12 * m.m33,
     m.m12 * m.m23 - m.m13 * m.m22,
     m.m23 * m.m31 - m.m21 * m.m33, m.m11 * m.m33 - m.m13 * m.m31,
     m.m13 * m.m21 - m.m11 * m.m23,
     m.m21 * m.m32 - m.m22 * m.m31, m.m12 * m.m31 - m.m11 * m.m32,
     m.m11 * m.m22 - m.m12 * m.m21⟩ m.det⁻¹)

end Matrix3

/-! ## src/numerics/quaternion.rs (scalar-first convention w,x,y,z) -/

structure Quaternion where
  w : ℝ
  x : ℝ
  y : ℝ
  z : ℝ

namespace Quaternion

def new (w x y z : ℝ) : Quaternion := ⟨w, x, y, z⟩

def scalar (q : Quaternion) : ℝ := q.w

def vector (q : Quaternion) : Vec3 := ⟨q.x, q.y, q.z⟩

def to_rotation_matrix (q : Quaternion) : Matrix3 :=
  ⟨1 - 2 * (q.y * q.y + q.z * q.z), 2 * (q.x * q.y - q.w * q.z),
   2 * (q.x * q.z + q.w * q.y),
   2 * (q.x * q.y + q.w * q.z), 1 - 2 * (q.x * q.x + q.z * q.z),
   2 * (q.y * q.z - q.w * q.x),
   2 * (q.x * q.z - q.w * q.y), 2 * (q.y * q.z + q.w * q.x),
   1 - 2 * (q.x * q.x + q.y * q.y)⟩

end Quaternion

def compute_quaternion_derivative (q : Quaternion) (w : Vec3) : Quaternion :=
  Quaternion.new
    (-0.5 * (q.x * w.x + q.y * w.y + q.z * w.z))
    (0.5 * (q.w * w.x + q.y * w.z - q.z * w.y))
    (0.5 * (q.w * w.y + q.z * w.x - q.x * w.z))
    (0.5 * (q.w * w.z + q.x * w.y - q.y * w.x))

/-! ## src/config/spacecraft.rs -/

namespace SimpleSat

def MASS : ℝ := 100.0

end SimpleSat

/-! ## src/models/state.rs: the propagated spacecraft state, generic over the
spacecraft-property provider type T (a reference in the source). -/

structure State (T : Type) where
  spacecraft : T
  mass : ℝ
  inertia_tensor : Matrix3
  position : Vec3
  velocity : Vec3
  quaternion : Quaternion
  angular_velocity : Vec3
  epoch : ℝ
  mission_elapsed_time : ℝ
  fuel_mass : ℝ

namespace State

/-- impl Add for State: the source's component-wise addition. -/
def add {T : Type} (a other : State T) : State T :=
  { spacecraft := a.spacecraft
    mass := a.mass
    inertia_tensor := a.inertia_tensor
    position := a.position.add other.position
    velocity := a.velocity.add other.velocity
    quaternion := Quaternion.new
      (a.quaternion.scalar + other.quaternion.scalar)
      (a.quaternion.vector.x + other.quaternion.vector.x)
      (a.quaternion.vector.y + other.quaternion.vector.y)
      (a.quaternion.vector.z + other.quaternion.vector.z)
    angular_velocity := a.angular_velocity.add other.angular_velocity
    epoch := a.epoch
    mission_elapsed_time := a.mission_elapsed_time + other.mission_elapsed_time
    fuel_mass := a.fuel_mass }

/-- impl Mul<f64> for State: the source's scalar multiplication. -/
def mul {T : Type} (a : State T) (scalar : ℝ) : State T :=
  { spacecraft := a.spacecraft
    mass := a.mass
    inertia_tensor := a.inertia_tensor
    position := a.position.smul scalar
    velocity := a.velocity.smul scalar
    quaternion := Quaternion.new
      (a.quaternion.scalar * scalar)
      (a.quaternion.vector.x * scalar)
      (a.quaternion.vector.y * scalar)
      (a.quaternion.vector.z * scalar)
    angular_velocity := a.angular_velocity.smul scalar
    epoch := a.epoch
    mission_elapsed_time := a.mission_elapsed_time * scalar
    fuel_mass := a.fuel_mass }

end State

/-! ## src/integrators/rk4.rs: the generic integrator only sees the state
through Clone + Add + Mul<f64> (RK4Ops) and the equations-of-motion trait
(a derivative function). -/

structure RK4Ops (S : Type) where
  add : S → S → S
  mul : S → ℝ → S

namespace RK4

def integrate {S : Type} (ops : RK4Ops S) (compute_derivative : S → S)
    (state : S) (dt : ℝ) : S :=
  let k1 := compute_derivative state
  let state2 := ops.add state (ops.mul k1 (dt / 2))
  let k2 := compute_derivative state2
  let state3 := ops.add state (ops.mul k2 (dt / 2))
  let k3 := compute_derivative state3
  let state4 := ops.add state (ops.mul k3 dt)
  let k4 := compute_derivative state4
  ops.add state
    (ops.mul (ops.add (ops.add (ops.add k1 (ops.mul k2 2)) (ops.mul k3 2)) k4)
      (dt / 6))

end RK4

/-! ## src/fsm/spacecraft_states.rs and src/fsm/state_machine.rs -/

inductive SpacecraftState where
  | SafeMode
  | Detumbling
  | NominalOperation
  | ManeuverPrep
  | Maneuvering
  | Emergency
deriving DecidableEq, Repr

structure SpacecraftFSM where
  current_state : SpacecraftState
  angular_velocity_threshold : ℝ
  emergency_angular_velocity : ℝ
  last_state_change : ℝ
  last_message_time : ℝ

namespace SpacecraftFSM

def new : SpacecraftFSM :=
  { current_state := SpacecraftState.SafeMode
    angular_velocity_threshold := 0.01
    emergency_angular_velocity := 0.5
    last_state_change := 0.0
    last_message_time := -1.0 }

/-- transition_to: updates the mode and timestamps the change, but only when
the new mode differs from the current one. -/
def transition_to (fsm : SpacecraftFSM) (new_state : SpacecraftState)
    (time : ℝ) : SpacecraftFSM :=
  if fsm.current_state ≠ new_state then
    { fsm with current_state := new_state, last_state_change := time }
  else fsm

def evaluate_transition {T : Type} (fsm : SpacecraftFSM) (state : State T) :
    SpacecraftFSM :=
  let angular_velocity := state.angular_velocity.magnitude
  let current_time := state.mission_elapsed_time
  match fsm.current_state with
  | SpacecraftState.SafeMode =>
      if angular_velocity > fsm.angular_velocity_threshold then
        fsm.transition_to SpacecraftState.Detumbling current_time
      else fsm
  | SpacecraftState.Detumbling =>
      if angular_velocity < fsm.angular_velocity_threshold then
        fsm.transition_to SpacecraftState.NominalOperation current_time
      else fsm
  | SpacecraftState.NominalOperation =>
      if angular_velocity > fsm.emergency_angular_velocity then
        fsm.transition_to SpacecraftState.Emergency current_time
      else fsm
  | SpacecraftState.ManeuverPrep =>
      if angular_velocity < fsm.angular_velocity_threshold ∧
          current_time - fsm.last_state_change > 5.0 then
        fsm.transition_to SpacecraftState.Maneuvering current_time
      else fsm
  | SpacecraftState.Maneuvering =>
      if angular_velocity > fsm.emergency_angular_velocity then
        fsm.transition_to SpacecraftState.Emergency current_time
      else fsm
  | SpacecraftState.Emergency =>
      if angular_velocity < fsm.angular_velocity_threshold ∧
          current_time - fsm.last_state_change > 30.0 then
        fsm.transition_to SpacecraftState.SafeMode current_time
      else fsm

/-- command_maneuver, returning (success, notice_emitted, updated fsm);
the middle component models the rate-limited println rejection notice. -/
def command_maneuver (fsm : SpacecraftFSM) (time : ℝ) :
    Bool × Bool × SpacecraftFSM :=
  if fsm.current_state = SpacecraftState.NominalOperation then
    (true, false, fsm.transition_to SpacecraftState.ManeuverPrep time)
  else if time - fsm.last_message_time > 10.0 then
    (false, true, { fsm with last_message_time := time })
  else
    (false, false, fsm)

def should_apply_control (fsm : SpacecraftFSM) : Bool :=
  match fsm.current_state with
  | SpacecraftState.SafeMode => false
  | SpacecraftState.Emergency => false
  | _ => true

def should_apply_thrust (fsm : SpacecraftFSM) : Bool :=
  match fsm.current_state with
  | SpacecraftState.Maneuvering => true
  | _ => false

end SpacecraftFSM

/-! ## src/physics/attitude.rs -/

def calculate_torque {T : Type} (state : State T) : Vec3 :=
  let r := state.position
  let r_mag := r.magnitude
  let r_unit := r.normalize
  let inertia := state.inertia_tensor
  let rot_matrix := state.quaternion.to_rotation_matrix
  let z_body := rot_matrix.transpose.mulVec r_unit
  (z_body.cross (inertia.mulVec z_body)).smul
    (3.0 * G * M_EARTH / (2.0 * r_mag ^ 3))

/-- angular_acceleration: Euler's rigid-body equation. The source inverts the
inertia tensor with try_inverse().unwrap(); `none` models the panic/abort of
unwrap when the inverse does not exist. -/
def angular_acceleration {T : Type} (state : State T)
    (external_torque : Option Vec3) : Option Vec3 :=
  let inertia := state.inertia_tensor
  let w := state.angular_velocity
  let torque := external_torque.getD (calculate_torque state)
  let gyro := w.cross (inertia.mulVec w)
  match inertia.try_inverse with
  | none => none
  | some inv => some (inv.mulVec (torque.sub gyro))

/-! ## src/gnc/control/attitude_controller.rs -/

structure GeometricAttitudeController where
  kp : ℝ
  kd : ℝ
  inertia : Matrix3

namespace GeometricAttitudeController

/-- The controller's torque before the saturation branch (source lines up to
the computation of control_torque). -/
def raw_control_torque (c : GeometricAttitudeController)
    (r_gcrs v_gcrs : Vec3) (q_gcrs2body : Quaternion) (w_body : Vec3) : Vec3 :=
  let r_unit := r_gcrs.normalize
  let h := r_gcrs.cross v_gcrs
  let w_unit := h.normalize
  let s_unit := w_unit.cross r_unit
  let r_gcrs2rsw := Matrix3.from_columns r_unit s_unit w_unit
  let r_current := q_gcrs2body.to_rotation_matrix
  let r_error := r_current.transpose.mul r_gcrs2rsw
  let e := (r_error.transpose.sub r_error).smul 0.5
  let e_r := Vec3.mk e.m32 e.m13 e.m21
  let orbital_rate := v_gcrs.magnitude / r_gcrs.magnitude
  let w_desired :=
    (r_current.transpose.mul r_gcrs2rsw).mulVec (Vec3.mk 0 0 (-orbital_rate))
  let e_w := w_body.sub w_desired
  c.inertia.mulVec ((e_r.smul (-c.kp)).sub (e_w.smul c.kd))

def compute_control_torque (c : GeometricAttitudeController)
    (r_gcrs v_gcrs : Vec3) (q_gcrs2body : Quaternion) (w_body : Vec3) : Vec3 :=
  let control_torque := c.raw_control_torque r_gcrs v_gcrs q_gcrs2body w_body
  let max_torque : ℝ := 1.0
  let torque_mag := control_torque.magnitude
  if torque_mag > max_torque then
    control_torque.smul
      (max_torque * (1.0 - Real.exp (-torque_mag / max_torque)) / torque_mag)
  else control_torque

end GeometricAttitudeController

/-! ## src/physics/orbital.rs -/

namespace OrbitalMechanics

/-- compute_apsides: (apogee radius, perigee radius) from the vis-viva /
angular-momentum relations. -/
def compute_apsides (r v : Vec3) : ℝ × ℝ :=
  let mu := G * M_EARTH
  let r_mag := r.magnitude
  let v_mag := v.magnitude
  let specific_energy := v_mag * v_mag / 2 - mu / r_mag
  let h := r.cross v
  let h_mag2 := h.dot h
  let a := -mu / (2 * specific_energy)
  let e := Real.sqrt (1 + 2 * specific_energy * h_mag2 / (mu * mu))
  (a * (1 + e), a * (1 - e))

/-- is_near_apsis: (at_apogee, at_perigee) within the given tolerance. -/
def is_near_apsis (r v : Vec3) (tolerance : ℝ) : Prop × Prop :=
  let ra := (compute_apsides r v).1
  let rp := (compute_apsides r v).2
  let r_mag := r.magnitude
  (|r_mag - ra| < tolerance, |r_mag - rp| < tolerance)

end OrbitalMechanics

/-! ## src/gnc/guidance/hohmann.rs -/

inductive ApsisType where
  | Perigee
  | Apogee
deriving DecidableEq, Repr

structure ApsisTargeting where
  target_radius : ℝ
  apsis_type : ApsisType
  start_time : ℝ

namespace ApsisTargeting

def get_desired_force (self : ApsisTargeting) (r_current v_current : Vec3)
    (time_since_start : ℝ) : Vec3 :=
  if time_since_start < self.start_time then Vec3.zeros
  else
    let ra := (OrbitalMechanics.compute_apsides r_current v_current).1
    let rp := (OrbitalMechanics.compute_apsides r_current v_current).2
    let should_burn : Prop :=
      match self.apsis_type with
      | ApsisType.Perigee => |rp - self.target_radius| > 100.0
      | ApsisType.Apogee => |ra - self.target_radius| > 100.0
    if ¬should_burn then Vec3.zeros
    else
      let at_apogee := (OrbitalMechanics.is_near_apsis r_current v_current 100.0).1
      let at_perigee := (OrbitalMechanics.is_near_apsis r_current v_current 100.0).2
      if (self.apsis_type = ApsisType.Perigee ∧ at_apogee) ∨
          (self.apsis_type = ApsisType.Apogee ∧ at_perigee) then
        let burn_direction := v_current.normalize
        let r := r_current.magnitude
        let v := v_current.magnitude
        let mu := G * M_EARTH
        let target_v :=
          match self.apsis_type with
          | ApsisType.Apogee =>
              Real.sqrt (mu * (2.0 / r - 2.0 / (self.target_radius + r)))
          | ApsisType.Perigee =>
              Real.sqrt (mu * (2.0 / r - 2.0 / (self.target_radius + r)))
        let delta_v := target_v - v
        let burn_magnitude :=
          if delta_v < 0 then -(min |delta_v| 100.0) else min |delta_v| 100.0
        (burn_direction.smul burn_magnitude).smul SimpleSat.MASS
      else Vec3.zeros

end ApsisTargeting

/-! ## Governor runs over event sequences (observation steps interleaved with
maneuver commands), for the temporal claim about thrust gating. -/

inductive FSMEvent (T : Type) where
  | obs (s : State T)
  | cmd (t : ℝ)

/-- Folds the governor over a sequence of evaluate_transition observations and
command_maneuver calls. -/
def runFSM {T : Type} (fsm : SpacecraftFSM) : List (FSMEvent T) → SpacecraftFSM
  | [] => fsm
  | FSMEvent.obs s :: es => runFSM (fsm.evaluate_transition s) es
  | FSMEvent.cmd t :: es => runFSM (fsm.command_maneuver t).2.2 es

/-- Holds when every command_maneuver call in the sequence returns false at
the point where it is made. -/
def noAcceptedCmd {T : Type} (fsm : SpacecraftFSM) : List (FSMEvent T) → Prop
  | [] => True
  | FSMEvent.obs s :: es => noAcceptedCmd (fsm.evaluate_transition s) es
  | FSMEvent.cmd t :: es =>
      (fsm.command_maneuver t).1 = false ∧
      noAcceptedCmd (fsm.command_maneuver t).2.2 es

/-- A vehicle state used to instantiate governor theorems: angular velocity
(0.02, 0, 0) rad/s observed at mission elapsed time 1 s. -/
def exVehicleState : State Unit :=
  { spacecraft := ()
    mass := 100
    inertia_tensor := Matrix3.identity
    position := ⟨7000000, 0, 0⟩
    velocity := ⟨0, 7500, 0⟩
    quaternion := ⟨1, 0, 0, 0⟩
    angular_velocity := ⟨0.02, 0, 0⟩
    epoch := 0
    mission_elapsed_time := 1
    fuel_mass := 10 }

/-- An attitude controller with identity inertia, kp = 1, kd = -3, used to
instantiate the saturation theorem at a raw torque of magnitude 3. -/
def exController : GeometricAttitudeController :=
  { kp := 1, kd := -3, inertia := Matrix3.identity }

/-- A state whose inertia tensor is the zero matrix, hence singular. -/
def exSingularState : State Unit :=
  { spacecraft := ()
    mass := 100
    inertia_tensor := Matrix3.zeros
    position := ⟨7000000, 0, 0⟩
    velocity := ⟨0, 7500, 0⟩
    quaternion := ⟨1, 0, 0, 0⟩
    angular_velocity := ⟨0.1, 0, 0⟩
    epoch := 0
    mission_elapsed_time := 0
    fuel_mass := 10 }

/-! ## Theorems -/

/-- C1: for every equations-of-motion derivative function f, state s and step
dt, RK4 integrate(s, dt) equals s + (k1 + k2*2 + k3*2 + k4)*(dt/6) with
k1 = f(s), k2 = f(s + k1*(dt/2)), k3 = f(s + k2*(dt/2)), k4 = f(s + k3*dt);
the right-hand side uses f at exactly those four points, and the result is a
pure function of (f, s, dt) — deterministic with no retained state. -/
theorem rk4_integrate_formula {S : Type} (ops : RK4Ops S) (f : S → S)
    (s : S) (dt : ℝ) :
    RK4.integrate ops f s dt =
      ops.add s
        (ops.mul
          (ops.add
            (ops.add
              (ops.add (f s) (ops.mul (f (ops.add s (ops.mul (f s) (dt / 2)))) 2))
              (ops.mul
                (f (ops.add s
                  (ops.mul (f (ops.add s (ops.mul (f s) (dt / 2)))) (dt / 2)))) 2))
            (f (ops.add s
              (ops.mul
                (f (ops.add s
                  (ops.mul (f (ops.add s (ops.mul (f s) (dt / 2)))) (dt / 2))))
                dt))))
          (dt / 6)) := rfl

/-- C2: State add combines position, velocity, the four quaternion components,
angular velocity and mission_elapsed_time component-wise, and State mul scales
each of those fields by k, while mass, inertia tensor, spacecraft reference,
epoch and fuel_mass of the result are those of the left-hand operand. -/
theorem state_add_mul_componentwise {T : Type} (a b : State T) (k : ℝ) :
    (a.add b).position =
      Vec3.mk (a.position.x + b.position.x) (a.position.y + b.position.y)
        (a.position.z + b.position.z) ∧
    (a.add b).velocity =
      Vec3.mk (a.velocity.x + b.velocity.x) (a.velocity.y + b.velocity.y)
        (a.velocity.z + b.velocity.z) ∧
    (a.add b).quaternion =
      Quaternion.mk (a.quaternion.w + b.quaternion.w)
        (a.quaternion.x + b.quaternion.x) (a.quaternion.y + b.quaternion.y)
        (a.quaternion.z + b.quaternion.z) ∧
    (a.add b).angular_velocity =
      Vec3.mk (a.angular_velocity.x + b.angular_velocity.x)
        (a.angular_velocity.y + b.angular_velocity.y)
        (a.angular_velocity.z + b.angular_velocity.z) ∧
    (a.add b).mission_elapsed_time =
      a.mission_elapsed_time + b.mission_elapsed_time ∧
    (a.add b).mass = a.mass ∧
    (a.add b).inertia_tensor = a.inertia_tensor ∧
    (a.add b).spacecraft = a.spacecraft ∧
    (a.add b).epoch = a.epoch ∧
    (a.add b).fuel_mass = a.fuel_mass ∧
    (a.mul k).position =
      Vec3.mk (a.position.x * k) (a.position.y * k) (a.position.z * k) ∧
    (a.mul k).velocity =
      Vec3.mk (a.velocity.x * k) (a.velocity.y * k) (a.velocity.z * k) ∧
    (a.mul k).quaternion =
      Quaternion.mk (a.quaternion.w * k) (a.quaternion.x * k)
        (a.quaternion.y * k) (a.quaternion.z * k) ∧
    (a.mul k).angular_velocity =
      Vec3.mk (a.angular_velocity.x * k) (a.angular_velocity.y * k)
        (a.angular_velocity.z * k) ∧
    (a.mul k).mission_elapsed_time = a.mission_elapsed_time * k ∧
    (a.mul k).mass = a.mass ∧
    (a.mul k).inertia_tensor = a.inertia_tensor ∧
    (a.mul k).spacecraft = a.spacecraft ∧
    (a.mul k).epoch = a.epoch ∧
    (a.mul k).fuel_mass = a.fuel_mass :=
  ⟨rfl, rfl, rfl, rfl, rfl, rfl, rfl, rfl, rfl, rfl,
   rfl, rfl, rfl, rfl, rfl, rfl, rfl, rfl, rfl, rfl⟩

/-- C8: should_apply_control() returns false exactly when the mode is SafeMode
or Emergency, and should_apply_thrust() returns true exactly when the mode is
Maneuvering. -/
theorem gating_predicates_characterization (fsm : SpacecraftFSM) :
    (fsm.should_apply_control = false ↔
      (fsm.current_state = SpacecraftState.SafeMode ∨
        fsm.current_state = SpacecraftState.Emergency)) ∧
    (fsm.should_apply_thrust = true ↔
      fsm.current_state = SpacecraftState.Maneuvering) := by
  obtain ⟨cs, th, em, lsc, lmt⟩ := fsm
  cases cs <;>
    simp [SpacecraftFSM.should_apply_control, SpacecraftFSM.should_apply_thrust]

/-- C3: a single evaluate_transition call implements exactly the transition
table (SafeMode→Detumbling iff ω>0.01; Detumbling→NominalOperation iff ω<0.01;
NominalOperation→Emergency iff ω>0.5; ManeuverPrep→Maneuvering iff ω<0.01 and
t−last_state_change>5; Maneuvering→Emergency iff ω>0.5; Emergency→SafeMode iff
ω<0.01 and t−last_state_change>30); otherwise the governor is unchanged, and
on every actual change last_state_change is set to t. -/
theorem evaluate_transition_table {T : Type} (fsm : SpacecraftFSM)
    (s : State T)
    (hth : fsm.angular_velocity_threshold = 0.01)
    (hem : fsm.emergency_angular_velocity = 0.5) :
    (fsm.current_state = SpacecraftState.SafeMode →
      fsm.evaluate_transition s =
        if s.angular_velocity.magnitude > 0.01 then
          { fsm with current_state := SpacecraftState.Detumbling,
                     last_state_change := s.mission_elapsed_time }
        else fsm) ∧
    (fsm.current_state = SpacecraftState.Detumbling →
      fsm.evaluate_transition s =
        if s.angular_velocity.magnitude < 0.01 then
          { fsm with current_state := SpacecraftState.NominalOperation,
                     last_state_change := s.mission_elapsed_time }
        else fsm) ∧
    (fsm.current_state = SpacecraftState.NominalOperation →
      fsm.evaluate_transition s =
        if s.angular_velocity.magnitude > 0.5 then
          { fsm with current_state := SpacecraftState.Emergency,
                     last_state_change := s.mission_elapsed_time }
        else fsm) ∧
    (fsm.current_state = SpacecraftState.ManeuverPrep →
      fsm.evaluate_transition s =
        if s.angular_velocity.magnitude < 0.01 ∧
            s.mission_elapsed_time - fsm.last_state_change > 5.0 then
          { fsm with current_state := SpacecraftState.Maneuvering,
                     last_state_change := s.mission_elapsed_time }
        else fsm) ∧
    (fsm.current_state = SpacecraftState.Maneuvering →
      fsm.evaluate_transition s =
        if s.angular_velocity.magnitude > 0.5 then
          { fsm with current_state := SpacecraftState.Emergency,
                     last_state_change := s.mission_elapsed_time }
        else fsm) ∧
    (fsm.current_state = SpacecraftState.Emergency →
      fsm.evaluate_transition s =
        if s.angular_velocity.magnitude < 0.01 ∧
            s.mission_elapsed_time - fsm.last_state_change > 30.0 then
          { fsm with current_state := SpacecraftState.SafeMode,
                     last_state_change := s.mission_elapsed_time }
        else fsm) := by
  refine ⟨?_, ?_, ?_, ?_, ?_, ?_⟩ <;> intro hcs <;>
    simp [SpacecraftFSM.evaluate_transition, SpacecraftFSM.transition_to,
      hcs, hth, hem]

/-- Witness for C3 at the freshly constructed governor and a concrete observed
state. -/
theorem evaluate_transition_table_witness :
    SpacecraftFSM.new.angular_velocity_threshold = 0.01 ∧
    SpacecraftFSM.new.emergency_angular_velocity = 0.5 ∧
    SpacecraftFSM.new.evaluate_transition exVehicleState =
      (if exVehicleState.angular_velocity.magnitude > 0.01 then
        { SpacecraftFSM.new with
            current_state := SpacecraftState.Detumbling,
            last_state_change := exVehicleState.mission_elapsed_time }
      else SpacecraftFSM.new) :=
  ⟨rfl, rfl,
    (evaluate_transition_table SpacecraftFSM.new exVehicleState rfl rfl).1 rfl⟩

/-- C9: command_maneuver(t) succeeds (returns true and moves the mode to
ManeuverPrep, stamping last_state_change := t) iff the mode is
NominalOperation; otherwise it returns false leaving mode and
last_state_change unchanged, and the rejection notice fires iff more than 10 s
of simulated time passed since the last notice, so after an emitted notice no
further notice is emitted for 10 s. -/
theorem command_maneuver_spec (fsm : SpacecraftFSM) (t : ℝ) :
    ((fsm.command_maneuver t).1 = true ↔
      fsm.current_state = SpacecraftState.NominalOperation) ∧
    (fsm.current_state = SpacecraftState.NominalOperation →
      (fsm.command_maneuver t).2.2 =
        { fsm with current_state := SpacecraftState.ManeuverPrep,
                   last_state_change := t }) ∧
    (fsm.current_state ≠ SpacecraftState.NominalOperation →
      (fsm.command_maneuver t).1 = false ∧
      (fsm.command_maneuver t).2.2.current_state = fsm.current_state ∧
      (fsm.command_maneuver t).2.2.last_state_change = fsm.last_state_change) ∧
    ((fsm.command_maneuver t).2.1 = true ↔
      fsm.current_state ≠ SpacecraftState.NominalOperation ∧
        t - fsm.last_message_time > 10.0) ∧
    ((fsm.command_maneuver t).2.1 = true →
      ∀ t2 : ℝ, t2 - t ≤ 10.0 →
        ((fsm.command_maneuver t).2.2.command_maneuver t2).2.1 = false) := by
  by_cases hN : fsm.current_state = SpacecraftState.NominalOperation
  · have hcm : fsm.command_maneuver t =
        (true, false,
          { fsm with current_state := SpacecraftState.ManeuverPrep,
                     last_state_change := t }) := by
      simp [SpacecraftFSM.command_maneuver, SpacecraftFSM.transition_to, hN]
    refine ⟨by simp [hcm, hN], fun _ => by simp [hcm], fun h => absurd hN h,
      by simp [hcm, hN], fun hno => ?_⟩
    simp [hcm] at hno
  · by_cases hT : t - fsm.last_message_time > 10.0
    · have hcm : fsm.command_maneuver t =
          (false, true, { fsm with last_message_time := t }) := by
        simp [SpacecraftFSM.command_maneuver, hN, hT]
      refine ⟨by simp [hcm, hN], fun h => absurd h hN,
        fun _ => by simp [hcm], by simp [hcm, hN, hT], fun _ t2 ht2 => ?_⟩
      have h2 : ¬ (t2 - t > 10.0) := not_lt.mpr ht2
      rw [hcm]
      simp [SpacecraftFSM.command_maneuver, hN, h2]
    · have hcm : fsm.command_maneuver t = (false, false, fsm) := by
        simp [SpacecraftFSM.command_maneuver, hN, hT]
      refine ⟨by simp [hcm, hN], fun h => absurd h hN,
        fun _ => by simp [hcm], by simp [hcm, hT], fun hno => ?_⟩
      simp [hcm] at hno

/-- Witness for C9: from the freshly constructed governor (SafeMode), a
maneuver command at t = 20 emits a notice, and a second rejected command at
t = 25 (within 10 s) does not. -/
theorem command_maneuver_spec_witness :
    ((SpacecraftFSM.new.command_maneuver 20).2.2.command_maneuver 25).2.1 =
      false := by
  have hnotice : (SpacecraftFSM.new.command_maneuver 20).2.1 = true :=
    (command_maneuver_spec SpacecraftFSM.new 20).2.2.2.1.mpr
      ⟨by simp [SpacecraftFSM.new], by norm_num [SpacecraftFSM.new]⟩
  exact (command_maneuver_spec SpacecraftFSM.new 20).2.2.2.2 hnotice 25
    (by norm_num)

/-- Scaling a vector scales its Euclidean magnitude by the absolute value of
the factor. -/
theorem Vec3.magnitude_smul (v : Vec3) (c : ℝ) :
    (v.smul c).magnitude = |c| * v.magnitude := by
  unfold Vec3.magnitude Vec3.smul
  rw [show (v.x * c) ^ 2 + (v.y * c) ^ 2 + (v.z * c) ^ 2 =
      c ^ 2 * (v.x ^ 2 + v.y ^ 2 + v.z ^ 2) by ring,
    Real.sqrt_mul (sq_nonneg c), Real.sqrt_sq_eq_abs]

/-- C5: the output of compute_control_torque never has magnitude above the
fixed maximum of 1 N·m, and whenever the raw torque magnitude exceeds 1 the
output is the raw torque scaled by max·(1−exp(−|τ|/max))/|τ| with max = 1,
preserving the raw torque's direction. -/
theorem compute_control_torque_saturation (c : GeometricAttitudeController)
    (r_gcrs v_gcrs : Vec3) (q_gcrs2body : Quaternion) (w_body : Vec3) :
    (c.compute_control_torque r_gcrs v_gcrs q_gcrs2body w_body).magnitude
        ≤ 1.0 ∧
    ((c.raw_control_torque r_gcrs v_gcrs q_gcrs2body w_body).magnitude > 1.0 →
      c.compute_control_torque r_gcrs v_gcrs q_gcrs2body w_body =
        (c.raw_control_torque r_gcrs v_gcrs q_gcrs2body w_body).smul
          (1.0 *
            (1.0 - Real.exp
              (-(c.raw_control_torque r_gcrs v_gcrs q_gcrs2body
                  w_body).magnitude / 1.0)) /
            (c.raw_control_torque r_gcrs v_gcrs q_gcrs2body
              w_body).magnitude)) := by
  have hcs : c.compute_control_torque r_gcrs v_gcrs q_gcrs2body w_body =
      if (c.raw_control_torque r_gcrs v_gcrs q_gcrs2body w_body).magnitude
          > 1.0 then
        (c.raw_control_torque r_gcrs v_gcrs q_gcrs2body w_body).smul
          (1.0 *
            (1.0 - Real.exp
              (-(c.raw_control_torque r_gcrs v_gcrs q_gcrs2body
                  w_body).magnitude / 1.0)) /
            (c.raw_control_torque r_gcrs v_gcrs q_gcrs2body
              w_body).magnitude)
      else c.raw_control_torque r_gcrs v_gcrs q_gcrs2body w_body := rfl
  set τ := c.raw_control_torque r_gcrs v_gcrs q_gcrs2body w_body with hτ
  set m := τ.magnitude with hmdef
  have hm0 : 0 ≤ m := Real.sqrt_nonneg _
  by_cases hgt : m > 1.0
  · have hgt1 : (1 : ℝ) < m := by
      rw [show (1.0 : ℝ) = 1 by norm_num] at hgt; exact hgt
    have hmpos : 0 < m := lt_trans zero_lt_one hgt1
    have hdiv : -m / 1.0 = -m := by norm_num
    have hE1 : Real.exp (-m / 1.0) < 1 := by
      rw [hdiv, Real.exp_lt_one_iff]; linarith
    have hE0 : 0 < Real.exp (-m / 1.0) := Real.exp_pos _
    have hscale : 0 ≤ 1.0 * (1.0 - Real.exp (-m / 1.0)) / m := by
      apply div_nonneg _ hm0
      have : (1.0 : ℝ) = 1 := by norm_num
      nlinarith
    rw [hcs, if_pos hgt]
    refine ⟨?_, fun _ => rfl⟩
    rw [Vec3.magnitude_smul, ← hmdef, abs_of_nonneg hscale]
    have hcancel : 1.0 * (1.0 - Real.exp (-m / 1.0)) / m * m =
        1.0 * (1.0 - Real.exp (-m / 1.0)) :=
      div_mul_cancel₀ _ (ne_of_gt hmpos)
    rw [hcancel]
    have h1 : (1.0 : ℝ) = 1 := by norm_num
    rw [h1]
    nlinarith
  · rw [hcs, if_neg hgt]
    exact ⟨le_of_not_lt hgt, fun h => absurd h hgt⟩

/-- Witness for C5 at the concrete controller and inputs giving raw torque
(0, 0, 3). -/
theorem compute_control_torque_saturation_witness :
    (exController.raw_control_torque ⟨1, 0, 0⟩ ⟨0, 1, 0⟩ ⟨1, 0, 0, 0⟩
        ⟨0, 0, 0⟩).magnitude > 1.0 ∧
    exController.compute_control_torque ⟨1, 0, 0⟩ ⟨0, 1, 0⟩ ⟨1, 0, 0, 0⟩
        ⟨0, 0, 0⟩ =
      (exController.raw_control_torque ⟨1, 0, 0⟩ ⟨0, 1, 0⟩ ⟨1, 0, 0, 0⟩
          ⟨0, 0, 0⟩).smul
        (1.0 *
          (1.0 - Real.exp
            (-(exController.raw_control_torque ⟨1, 0, 0⟩ ⟨0, 1, 0⟩
                ⟨1, 0, 0, 0⟩ ⟨0, 0, 0⟩).magnitude / 1.0)) /
          (exController.raw_control_torque ⟨1, 0, 0⟩ ⟨0, 1, 0⟩ ⟨1, 0, 0, 0⟩
            ⟨0, 0, 0⟩).magnitude) := by
  have hraw : exController.raw_control_torque ⟨1, 0, 0⟩ ⟨0, 1, 0⟩
      ⟨1, 0, 0, 0⟩ ⟨0, 0, 0⟩ = ⟨0, 0, 3⟩ := by
    norm_num [GeometricAttitudeController.raw_control_torque, exController,
      Vec3.normalize, Vec3.magnitude, Vec3.cross, Vec3.sub, Vec3.smul,
      Matrix3.from_columns, Matrix3.transpose, Matrix3.mul, Matrix3.mulVec,
      Matrix3.sub, Matrix3.smul, Matrix3.identity,
      Quaternion.to_rotation_matrix]
  have hmag : (exController.raw_control_torque ⟨1, 0, 0⟩ ⟨0, 1, 0⟩
      ⟨1, 0, 0, 0⟩ ⟨0, 0, 0⟩).magnitude > 1.0 := by
    rw [hraw]
    unfold Vec3.magnitude
    rw [show (0 : ℝ) ^ 2 + 0 ^ 2 + 3 ^ 2 = 3 ^ 2 by norm_num,
      Real.sqrt_sq (by norm_num : (0 : ℝ) ≤ 3)]
    norm_num
  exact ⟨hmag,
    (compute_control_torque_saturation exController ⟨1, 0, 0⟩ ⟨0, 1, 0⟩
      ⟨1, 0, 0, 0⟩ ⟨0, 0, 0⟩).2 hmag⟩

/-- C4 counterexample: at a concrete state with a singular (zero) inertia
tensor and an explicit external torque, angular_acceleration does not return
any (NaN or otherwise) value: the try_inverse().unwrap() call aborts, which
the model records as none. This refutes the claim that the computation fails
by returning a non-finite result rather than aborting. -/
theorem angular_acceleration_singular_not_returning :
    exSingularState.inertia_tensor.det = 0 ∧
    angular_acceleration exSingularState (some ⟨1, 0, 0⟩) = none := by
  have hdet : exSingularState.inertia_tensor.det = 0 := by
    norm_num [exSingularState, Matrix3.zeros, Matrix3.det]
  refine ⟨hdet, ?_⟩
  simp [angular_acceleration, Matrix3.try_inverse, hdet]

/-- C4 (amended): for every state whose inertia tensor is singular (zero
determinant, the exact condition under which the source's try_inverse fails),
angular_acceleration aborts — it panics on unwrap of the failed inversion
(modelled as none) — rather than returning a NaN result; the singularity is
not guarded internally, so the caller must ensure a non-degenerate inertia
tensor. -/
theorem angular_acceleration_singular_aborts {T : Type} (s : State T)
    (external_torque : Option Vec3) (h : s.inertia_tensor.det = 0) :
    angular_acceleration s external_torque = none := by
  simp [angular_acceleration, Matrix3.try_inverse, h]

/-- Witness for the amended C4 at the concrete zero-inertia state. -/
theorem angular_acceleration_singular_aborts_witness :
    exSingularState.inertia_tensor.det = 0 ∧
    angular_acceleration exSingularState none = none := by
  have hdet : exSingularState.inertia_tensor.det = 0 := by
    norm_num [exSingularState, Matrix3.zeros, Matrix3.det]
  exact ⟨hdet, angular_acceleration_singular_aborts exSingularState none hdet⟩

/-- C7: get_desired_force returns the zero vector before the configured
start-time, and also when the targeted apsis radius is already within 100 m of
the target radius. -/
theorem get_desired_force_zero_cases (self : ApsisTargeting)
    (r_current v_current : Vec3) (t : ℝ)
    (h : t < self.start_time ∨
      (self.apsis_type = ApsisType.Perigee ∧
        |(OrbitalMechanics.compute_apsides r_current v_current).2 -
          self.target_radius| ≤ 100.0) ∨
      (self.apsis_type = ApsisType.Apogee ∧
        |(OrbitalMechanics.compute_apsides r_current v_current).1 -
          self.target_radius| ≤ 100.0)) :
    self.get_desired_force r_current v_current t = Vec3.zeros := by
  simp only [ApsisTargeting.get_desired_force]
  by_cases ht : t < self.start_time
  · rw [if_pos ht]
  · rw [if_neg ht]
    rcases h with h1 | ⟨hp, hle⟩ | ⟨ha, hle⟩
    · exact absurd h1 ht
    · simp only [hp]
      rw [if_pos (not_lt.mpr hle)]
    · simp only [ha]
      rw [if_pos (not_lt.mpr hle)]

/-- Witness for C7: a call at t = 0 with start-time 1 returns zero. -/
theorem get_desired_force_zero_cases_witness :
    ApsisTargeting.get_desired_force
      { target_radius := 7000000, apsis_type := ApsisType.Apogee,
        start_time := 1.0 }
      ⟨7000000, 0, 0⟩ ⟨0, 7500, 0⟩ 0 = Vec3.zeros :=
  get_desired_force_zero_cases _ _ _ _ (Or.inl (by norm_num))

/-- On the circular orbit of radius 99647299000000 m (= mu/4 for this model's
mu = G·M_EARTH = 3.98589196e14) with speed 2 m/s, both apsides equal the
orbit radius exactly. -/
theorem compute_apsides_circular :
    OrbitalMechanics.compute_apsides ⟨99647299000000, 0, 0⟩ ⟨0, 2, 0⟩ =
      (99647299000000, 99647299000000) := by
  have h1 : Vec3.magnitude ⟨99647299000000, 0, 0⟩ = 99647299000000 := by
    unfold Vec3.magnitude
    rw [show ((99647299000000 : ℝ) ^ 2 + 0 ^ 2 + 0 ^ 2) =
        (99647299000000 : ℝ) ^ 2 by norm_num,
      Real.sqrt_sq (by norm_num : (0 : ℝ) ≤ 99647299000000)]
  have h2 : Vec3.magnitude ⟨0, 2, 0⟩ = 2 := by
    unfold Vec3.magnitude
    rw [show ((0 : ℝ) ^ 2 + 2 ^ 2 + 0 ^ 2) = (2 : ℝ) ^ 2 by norm_num,
      Real.sqrt_sq (by norm_num : (0 : ℝ) ≤ 2)]
  simp only [OrbitalMechanics.compute_apsides, h1, h2, Vec3.cross, Vec3.dot]
  norm_num [G, M_EARTH]

/-- C6: when called at the correct burn apsis (here within 100 m of the apsis
opposite the targeted one), at or after start-time, with the targeted apsis
radius more than 100 m from target, get_desired_force returns
v̂ · Δv_clamped · m: the required speed comes from the vis-viva equation
sqrt(mu·(2/r − 2/(target_radius + r))) at the current radius r, Δv is the
required speed minus the current speed with magnitude clamped to 100 m/s
(sign preserved), v̂ is the velocity unit vector, and m is the spacecraft
mass (SimpleSat::MASS). -/
theorem get_desired_force_burn (self : ApsisTargeting)
    (r_current v_current : Vec3) (t : ℝ)
    (ht : ¬ t < self.start_time)
    (hburnP : self.apsis_type = ApsisType.Perigee →
      |(OrbitalMechanics.compute_apsides r_current v_current).2 -
        self.target_radius| > 100.0)
    (hburnA : self.apsis_type = ApsisType.Apogee →
      |(OrbitalMechanics.compute_apsides r_current v_current).1 -
        self.target_radius| > 100.0)
    (hatP : self.apsis_type = ApsisType.Perigee →
      (OrbitalMechanics.is_near_apsis r_current v_current 100.0).1)
    (hatA : self.apsis_type = ApsisType.Apogee →
      (OrbitalMechanics.is_near_apsis r_current v_current 100.0).2) :
    self.get_desired_force r_current v_current t =
      (v_current.normalize.smul
        (let target_v := Real.sqrt (G * M_EARTH *
          (2.0 / r_current.magnitude -
            2.0 / (self.target_radius + r_current.magnitude)))
         let delta_v := target_v - v_current.magnitude
         if delta_v < 0 then -(min |delta_v| 100.0)
         else min |delta_v| 100.0)).smul SimpleSat.MASS := by
  obtain ⟨tr, aty, st⟩ := self
  simp only [ApsisTargeting.get_desired_force]
  rw [if_neg ht]
  cases aty with
  | Perigee =>
      simp only
      rw [if_neg (not_not_intro (hburnP rfl)),
        if_pos (Or.inl ⟨by trivial, hatP rfl⟩)]
  | Apogee =>
      simp only
      rw [if_neg (not_not_intro (hburnA rfl)),
        if_pos (Or.inr ⟨by trivial, hatA rfl⟩)]

/-- Witness for C6: an apogee-raising call on the exact circular orbit, 1000 m
below the target apogee, at the (perigee) burn point. -/
theorem get_desired_force_burn_witness :
    |(OrbitalMechanics.compute_apsides ⟨99647299000000, 0, 0⟩
        ⟨0, 2, 0⟩).1 - (99647299001000 : ℝ)| > 100.0 ∧
    (OrbitalMechanics.is_near_apsis ⟨99647299000000, 0, 0⟩
        ⟨0, 2, 0⟩ 100.0).2 ∧
    ApsisTargeting.get_desired_force
        ⟨99647299001000, ApsisType.Apogee, 0⟩
        ⟨99647299000000, 0, 0⟩ ⟨0, 2, 0⟩ 0 =
      ((Vec3.mk 0 2 0).normalize.smul
        (let target_v := Real.sqrt (G * M_EARTH *
          (2.0 / (Vec3.mk 99647299000000 0 0).magnitude -
            2.0 / ((99647299001000 : ℝ) +
              (Vec3.mk 99647299000000 0 0).magnitude)))
         let delta_v := target_v - (Vec3.mk 0 2 0).magnitude
         if delta_v < 0 then -(min |delta_v| 100.0)
         else min |delta_v| 100.0)).smul SimpleSat.MASS := by
  have hburn : |(OrbitalMechanics.compute_apsides ⟨99647299000000, 0, 0⟩
      ⟨0, 2, 0⟩).1 - (99647299001000 : ℝ)| > 100.0 := by
    rw [compute_apsides_circular]
    norm_num
  have hnear : (OrbitalMechanics.is_near_apsis ⟨99647299000000, 0, 0⟩
      ⟨0, 2, 0⟩ 100.0).2 := by
    simp only [OrbitalMechanics.is_near_apsis, compute_apsides_circular]
    have h1 : Vec3.magnitude ⟨99647299000000, 0, 0⟩ = 99647299000000 := by
      unfold Vec3.magnitude
      rw [show ((99647299000000 : ℝ) ^ 2 + 0 ^ 2 + 0 ^ 2) =
          (99647299000000 : ℝ) ^ 2 by norm_num,
        Real.sqrt_sq (by norm_num : (0 : ℝ) ≤ 99647299000000)]
    rw [h1]
    norm_num
  refine ⟨hburn, hnear, ?_⟩
  exact get_desired_force_burn ⟨99647299001000, ApsisType.Apogee, 0⟩
    ⟨99647299000000, 0, 0⟩ ⟨0, 2, 0⟩ 0 (by norm_num)
    (fun h => by simp at h) (fun _ => hburn)
    (fun h => by simp at h) (fun _ => hnear)

/-- A single evaluate_transition step never enters ManeuverPrep or Maneuvering
from outside those modes: no observation-driven transition targets them. -/
theorem evaluate_transition_no_thrust_entry {T : Type} (fsm : SpacecraftFSM)
    (s : State T)
    (h1 : fsm.current_state ≠ SpacecraftState.ManeuverPrep)
    (h2 : fsm.current_state ≠ SpacecraftState.Maneuvering) :
    (fsm.evaluate_transition s).current_state ≠ SpacecraftState.ManeuverPrep ∧
    (fsm.evaluate_transition s).current_state ≠ SpacecraftState.Maneuvering := by
  cases hc : fsm.current_state with
  | ManeuverPrep => exact absurd hc h1
  | Maneuvering => exact absurd hc h2
  | SafeMode =>
      simp only [SpacecraftFSM.evaluate_transition, SpacecraftFSM.transition_to,
        hc]
      split_ifs <;> simp [hc]
  | Detumbling =>
      simp only [SpacecraftFSM.evaluate_transition, SpacecraftFSM.transition_to,
        hc]
      split_ifs <;> simp [hc]
  | NominalOperation =>
      simp only [SpacecraftFSM.evaluate_transition, SpacecraftFSM.transition_to,
        hc]
      split_ifs <;> simp [hc]
  | Emergency =>
      simp only [SpacecraftFSM.evaluate_transition, SpacecraftFSM.transition_to,
        hc]
      split_ifs <;> simp [hc]

/-- A command_maneuver call that returns false was made outside
NominalOperation. -/
theorem command_maneuver_false_mode (fsm : SpacecraftFSM) (t : ℝ)
    (h : (fsm.command_maneuver t).1 = false) :
    fsm.current_state ≠ SpacecraftState.NominalOperation := by
  intro hN
  simp [SpacecraftFSM.command_maneuver, hN] at h

/-- A rejected command_maneuver call leaves the mode unchanged. -/
theorem command_maneuver_rejected_state (fsm : SpacecraftFSM) (t : ℝ)
    (h : fsm.current_state ≠ SpacecraftState.NominalOperation) :
    (fsm.command_maneuver t).2.2.current_state = fsm.current_state := by
  by_cases hT : t - fsm.last_message_time > 10.0 <;>
    simp [SpacecraftFSM.command_maneuver, h, hT]

/-- Running any event sequence in which every maneuver command is rejected
preserves the invariant of being outside ManeuverPrep and Maneuvering. -/
theorem runFSM_no_thrust {T : Type} :
    ∀ (es : List (FSMEvent T)) (fsm : SpacecraftFSM),
      fsm.current_state ≠ SpacecraftState.ManeuverPrep →
      fsm.current_state ≠ SpacecraftState.Maneuvering →
      noAcceptedCmd fsm es →
      (runFSM fsm es).current_state ≠ SpacecraftState.ManeuverPrep ∧
      (runFSM fsm es).current_state ≠ SpacecraftState.Maneuvering
  | [], _, h1, h2, _ => ⟨h1, h2⟩
  | FSMEvent.obs s :: es, fsm, h1, h2, hna => by
      obtain ⟨g1, g2⟩ := evaluate_transition_no_thrust_entry fsm s h1 h2
      exact runFSM_no_thrust es (fsm.evaluate_transition s) g1 g2 hna
  | FSMEvent.cmd t :: es, fsm, h1, h2, hna => by
      obtain ⟨hf, hna2⟩ := hna
      have hmode := command_maneuver_rejected_state fsm t
        (command_maneuver_false_mode fsm t hf)
      refine runFSM_no_thrust es (fsm.command_maneuver t).2.2 ?_ ?_ hna2
      · rw [hmode]; exact h1
      · rw [hmode]; exact h2

/-- noAcceptedCmd is closed under taking prefixes. -/
theorem noAcceptedCmd_take {T : Type} :
    ∀ (es : List (FSMEvent T)) (fsm : SpacecraftFSM) (n : ℕ),
      noAcceptedCmd fsm es → noAcceptedCmd fsm (es.take n)
  | [], _, n, _ => by simp [noAcceptedCmd]
  | _ :: _, _, 0, _ => by simp [noAcceptedCmd]
  | FSMEvent.obs s :: es, fsm, n + 1, h => by
      show noAcceptedCmd (fsm.evaluate_transition s) (es.take n)
      exact noAcceptedCmd_take es (fsm.evaluate_transition s) n h
  | FSMEvent.cmd t :: es, fsm, n + 1, h =>
      ⟨h.1, noAcceptedCmd_take es (fsm.command_maneuver t).2.2 n h.2⟩

/-- should_apply_thrust is false outside Maneuvering. -/
theorem should_apply_thrust_eq_false (fsm : SpacecraftFSM)
    (h : fsm.current_state ≠ SpacecraftState.Maneuvering) :
    fsm.should_apply_thrust = false := by
  cases hc : fsm.current_state <;>
    first
      | exact absurd hc h
      | simp [SpacecraftFSM.should_apply_thrust, hc]

/-- C10: starting from a newly constructed governor, along any event sequence
in which no command_maneuver call returns true, the mode is never ManeuverPrep
or Maneuvering at any point (any prefix length n), and should_apply_thrust()
is false after every step. -/
theorem new_governor_thrust_only_via_command {T : Type}
    (es : List (FSMEvent T)) (hna : noAcceptedCmd SpacecraftFSM.new es)
    (n : ℕ) :
    (runFSM SpacecraftFSM.new (es.take n)).current_state ≠
      SpacecraftState.ManeuverPrep ∧
    (runFSM SpacecraftFSM.new (es.take n)).current_state ≠
      SpacecraftState.Maneuvering ∧
    (runFSM SpacecraftFSM.new (es.take n)).should_apply_thrust = false := by
  have h := runFSM_no_thrust (es.take n) SpacecraftFSM.new
    (by simp [SpacecraftFSM.new]) (by simp [SpacecraftFSM.new])
    (noAcceptedCmd_take es SpacecraftFSM.new n hna)
  exact ⟨h.1, h.2, should_apply_thrust_eq_false _ h.2⟩

/-- Witness for C10: the one-event sequence of a (rejected) maneuver command
at t = 20 from the fresh governor. -/
theorem new_governor_thrust_only_via_command_witness :
    noAcceptedCmd SpacecraftFSM.new [FSMEvent.cmd (T := Unit) 20] ∧
    (runFSM SpacecraftFSM.new
      ([FSMEvent.cmd (T := Unit) 20].take 1)).should_apply_thrust = false := by
  have hna : noAcceptedCmd SpacecraftFSM.new [FSMEvent.cmd (T := Unit) 20] := by
    refine ⟨?_, trivial⟩
    show (SpacecraftFSM.new.command_maneuver 20).1 = false
    unfold SpacecraftFSM.command_maneuver
    split_ifs with h1 h2
    · simp [SpacecraftFSM.new] at h1
    · rfl
    · rfl
  exact ⟨hna,
    (new_governor_thrust_only_via_command [FSMEvent.cmd (T := Unit) 20]
      hna 1).2.2⟩

end

end KosmOSS
